import Mathlib

/-!
Thunder RabbitMQ consumer: the dispatch loop.

A shallow embedding of `internal/events/rabbitmq/consumer/handler.go`:

* `extractTopic`, `injectTopic`, `newDecoder` are pure functions on a delivery;
* `handleWithRecoverer` calls the application handler under a deferred `recover`;
* `rabbitmqConsumer.handlerBody` is one iteration of the `for msg := range msgs`
  loop and `rabbitmqConsumer.handler` is the loop itself over the finite
  sequence of deliveries received before the channel is closed.

A Go function either returns or panics; this is the type `Outcome`. The
application handler and the broker are collaborators with their own mutable
state, threaded explicitly as a value of type `σ`. What the loop does to the
outside is recorded as a list of `Effect`s, in program order.
-/

namespace Thunder

/-! ## Data model -/

/-- Values an AMQP header table can hold (`interface{}` in `amqp.Table`). Only
the dynamic type matters to the consumer: `str` is Go `string`, every other
constructor is a dynamic type for which the assertion `.(string)` fails. -/
inductive Value where
  | nil
  | bool (b : Bool)
  | int (i : Int)
  | str (s : String)
  | bytes (b : List Nat)
  | other (typeName : String)
  deriving DecidableEq, Repr

/-- A non-nil `amqp.Table` (`map[string]interface{}`), as an association list
with at most the first binding of a key visible. -/
abbrev Table := List (String × Value)

/-- Map read `t[k]` with the comma-ok form: `none` is `ok == false`. -/
def Table.get? : Table → String → Option Value
  | [], _ => none
  | (k0, v) :: rest, k => if k0 = k then some v else Table.get? rest k

/-- Map write `t[k] = v`: the binding of `k` is replaced where it stands, or
added when the key is new. -/
def Table.set : Table → String → Value → Table
  | [], k, v => [(k, v)]
  | (k0, v0) :: rest, k, v =>
    if k0 = k then (k, v) :: rest else (k0, v0) :: Table.set rest k v

/-- The fields of `amqp.Delivery` the consumer reads or writes. `Headers` is
`none` for a nil map. `DeliveryTag` identifies the delivery to the broker in
`Ack` and `Nack`. -/
structure Delivery where
  Headers : Option Table
  ContentType : String
  DeliveryTag : Nat
  RoutingKey : String
  Body : List Nat
  deriving DecidableEq, Repr

/-- Reading a key of `msg.Headers`; reading a nil map finds nothing. -/
def Delivery.header? (msg : Delivery) (k : String) : Option Value :=
  match msg.Headers with
  | none => none
  | some t => t.get? k

/-- The argument of a Go `panic` (an `interface{}`): the nil interface of
`panic(nil)`, a value that implements `error`, or any other value, kept by its
`%v` text. -/
inductive PanicValue where
  | nil
  | error (msg : String)
  | value (formatted : String)
  deriving DecidableEq, Repr

/-- A Go call either returns a result or panics. -/
inductive Outcome (α : Type) where
  | returned (a : α)
  | panicked (p : PanicValue)
  deriving DecidableEq, Repr

/-- The type `events.EventDecoder` as built by `newDecoder`: which library
decoder was chosen and the bytes it reads from. -/
inductive Decoder where
  | msgpack (body : List Nat)
  | json (body : List Nat)
  deriving DecidableEq, Repr

/-- Which of the two decoders a value is. -/
def Decoder.isMsgpack : Decoder → Bool
  | .msgpack _ => true
  | .json _ => false

/-- The bytes a decoder reads from. -/
def Decoder.body : Decoder → List Nat
  | .msgpack b => b
  | .json b => b

/-- Go `type HandlerResponse int` of package `events`. -/
abbrev HandlerResponse := Int

/-- The three constants of package `events` named by the dispatch loop. Their
declaration is outside this unit, so their numeric values are left open. -/
structure EventsConsts where
  Success : HandlerResponse
  DeadLetter : HandlerResponse
  RetryBackoff : HandlerResponse
  deriving DecidableEq, Repr

/-- The three constants are pairwise different: the Go compiler refuses an
expression switch that names the same integer constant in two cases. -/
def EventsConsts.distinct (c : EventsConsts) : Prop :=
  c.Success ≠ c.DeadLetter ∧ c.Success ≠ c.RetryBackoff ∧ c.DeadLetter ≠ c.RetryBackoff

instance (c : EventsConsts) : Decidable c.distinct := by
  unfold EventsConsts.distinct; infer_instance

/-- Log levels used by the consumer. -/
inductive Level where
  | info
  | error
  deriving DecidableEq, Repr

/-- What one iteration does to the outside, in program order. `handle` records
the call of `handler.Handle`; `ack` and `nack` are the broker calls
`msg.Ack(multiple)` and `msg.Nack(multiple, requeue)`; `retry` is the statement
`go r.retryBackoff(msg, &logger)`. -/
inductive Effect where
  | log (level : Level) (message : String) (err : Option String)
  | handle (topic : String) (decoder : Decoder)
  | ack (msg : Delivery) (multiple : Bool)
  | nack (msg : Delivery) (multiple : Bool) (requeue : Bool)
  | retry (msg : Delivery)
  deriving DecidableEq, Repr

/-- The surroundings of the loop over a shared state `σ`: the application
handler, which returns a response or panics, the two broker calls, which
return `some err` when they fail, and the run-time setting `GODEBUG=panicnil=1`
of the program the package is linked into (the default when its main module
declares Go 1.20 or older), under which `panic(nil)` is not replaced by a
`*runtime.PanicNilError`. -/
structure World (σ : Type) where
  Handle : σ → String → Decoder → Outcome HandlerResponse × σ
  Ack : σ → Delivery → Bool → Option String × σ
  Nack : σ → Delivery → Bool → Bool → Option String × σ
  panicnil : Bool

/-! ## The functions of `handler.go` -/

/-- Go `const topicHeaderKey`. -/
def topicHeaderKey : String := "x-thunder-topic"

/-- The run-time panic of a failed type assertion `headerTopic.(string)`; a
`runtime.TypeAssertionError` is an error value. -/
def typeAssertionPanic : PanicValue :=
  .error "interface conversion: interface {} is not string"

/-- Go `extractTopic`: the header first, then the routing key. The unchecked
assertion `headerTopic.(string)` panics on any value that is not a string. -/
def extractTopic (msg : Delivery) : Outcome String :=
  match msg.header? topicHeaderKey with
  | some (.str headerTopic) => .returned headerTopic
  | some _ => .panicked typeAssertionPanic
  | none => .returned msg.RoutingKey

/-- Go `injectTopic`: a nil header map is replaced by a fresh one, then the
topic is stored under the reserved key. -/
def injectTopic (msg : Delivery) (topic : String) : Delivery :=
  let headers : Table :=
    match msg.Headers with
    | none => []
    | some t => t
  { msg with Headers := some (headers.set topicHeaderKey (.str topic)) }

/-- Go `newDecoder`: msgpack for the content type `application/msgpack`, JSON
for everything else. -/
def newDecoder (msg : Delivery) : Decoder :=
  if msg.ContentType = "application/msgpack" then .msgpack msg.Body
  else .json msg.Body

/-- The error logged by the deferred function: a non-error payload is turned
into an error from its `%v` text, then wrapped with the message `panic`. -/
def panicError : PanicValue → String
  | .nil => "panic: <nil>"
  | .error msg => "panic: " ++ msg
  | .value formatted => "panic: " ++ formatted

/-- Go `recover()` called by a deferred function while the panic `p` is in
flight: the panic is stopped and its value handed back; `none` is the nil
interface. A `panic(nil)` comes back as a `*runtime.PanicNilError`, an error
value, unless `panicnil` is set, in which case it comes back as nil. -/
def recoverValue (panicnil : Bool) : PanicValue → Option PanicValue
  | .nil => if panicnil then none else some (.error "panic called with nil argument")
  | .error msg => some (.error msg)
  | .value formatted => some (.value formatted)

/-- Go `handleWithRecoverer`: log, call the handler, and in the deferred
function `if r := recover(); r != nil` turn the recovered panic into
`events.DeadLetter`. When `recover()` returns nil the branch is skipped: the
panic is stopped all the same and the named result `res` keeps its zero value.
The result is an `Outcome` so that an escaping panic could be expressed. -/
def handleWithRecoverer {σ : Type} (c : EventsConsts) (w : World σ) (s : σ)
    (topic : String) (decoder : Decoder) :
    Outcome HandlerResponse × List Effect × σ :=
  let pre : List Effect := [.log .info "consuming message" none, .handle topic decoder]
  match w.Handle s topic decoder with
  | (.returned res, s1) => (.returned res, pre, s1)
  | (.panicked p, s1) =>
    match recoverValue w.panicnil p with
    | some r =>
      (.returned c.DeadLetter,
        pre ++ [.log .error "panic while consuming message" (some (panicError r))], s1)
    | none => (.returned 0, pre, s1)

/-- The result of running part of the loop: the effects performed, the state
of the collaborators afterwards, and the panic leaving the loop, if any. -/
structure Run (σ : Type) where
  effects : List Effect
  state : σ
  escaped : Option PanicValue

/-- The log line written when a broker call returned an error. -/
def logFailure (message : String) : Option String → List Effect
  | none => []
  | some err => [.log .error message (some err)]

/-- The `switch res` of the loop body, cases tried in source order. -/
def route {σ : Type} (c : EventsConsts) (w : World σ) (s : σ) (msg : Delivery)
    (res : HandlerResponse) : List Effect × σ :=
  if res = c.Success then
    let (err, s1) := w.Ack s msg false
    (.ack msg false :: logFailure "failed to ack message" err, s1)
  else if res = c.DeadLetter then
    let (err, s1) := w.Nack s msg false false
    (.nack msg false false :: logFailure "failed to requeue message" err, s1)
  else if res = c.RetryBackoff then
    ([.retry msg], s)
  else
    let (err, s1) := w.Nack s msg false true
    (.nack msg false true :: logFailure "failed to discard message" err, s1)

/-- One iteration of the loop of `rabbitmqConsumer.handler` for the delivery
`msg`. A panic of `extractTopic` is outside every `recover` and leaves the
loop. -/
def rabbitmqConsumer.handlerBody {σ : Type} (c : EventsConsts) (w : World σ) (s : σ)
    (msg : Delivery) : Run σ :=
  match extractTopic msg with
  | .panicked p => ⟨[], s, some p⟩
  | .returned topic =>
    let msg1 := injectTopic msg topic
    let decoder := newDecoder msg1
    match handleWithRecoverer c w s topic decoder with
    | (.panicked p, effs, s1) => ⟨effs, s1, some p⟩
    | (.returned res, effs, s1) =>
      let (acts, s2) := route c w s1 msg1 res
      ⟨effs ++ acts, s2, none⟩

/-- Go `rabbitmqConsumer.handler`: `for msg := range msgs` over the deliveries
received before the channel is closed. A panic leaving an iteration ends the
loop; otherwise the loop goes on with the next delivery. -/
def rabbitmqConsumer.handler {σ : Type} (c : EventsConsts) (w : World σ) :
    σ → List Delivery → Run σ
  | s, [] => ⟨[], s, none⟩
  | s, msg :: msgs =>
    match rabbitmqConsumer.handlerBody c w s msg with
    | ⟨effs, s1, some p⟩ => ⟨effs, s1, some p⟩
    | ⟨effs, s1, none⟩ =>
      let rest := rabbitmqConsumer.handler c w s1 msgs
      ⟨effs ++ rest.effects, rest.state, rest.escaped⟩

/-! ## Observations on traces -/

/-- The terminal effects against a delivery: `Ack`, `Nack` and the hand-off to
`retryBackoff`. -/
def Effect.isTerminal : Effect → Bool
  | .ack _ _ => true
  | .nack _ _ _ => true
  | .retry _ => true
  | _ => false

/-- The broker calls made by the loop itself. -/
def Effect.isBrokerCall : Effect → Bool
  | .ack _ _ => true
  | .nack _ _ _ => true
  | _ => false

/-- The calls of the handler. -/
def Effect.isHandle : Effect → Bool
  | .handle _ _ => true
  | _ => false

/-- The terminal effects of a trace, in order. -/
def terminals (effs : List Effect) : List Effect := effs.filter Effect.isTerminal

/-- The broker calls of a trace, in order. -/
def brokerCalls (effs : List Effect) : List Effect := effs.filter Effect.isBrokerCall

/-- The handler calls of a trace, in order. -/
def handleCalls (effs : List Effect) : List Effect := effs.filter Effect.isHandle

/-- The reserved topic header is absent or holds a string. -/
def topicHeaderOk (msg : Delivery) : Prop :=
  match msg.header? topicHeaderKey with
  | none => True
  | some (.str _) => True
  | some _ => False

instance (msg : Delivery) : Decidable (topicHeaderOk msg) := by
  unfold topicHeaderOk; split <;> infer_instance

/-! ## Sample collaborators -/

/-- A handler that answers by the topic: it panics on `boom`, succeeds on
`orders.created`, dead-letters `orders.dead`, asks for a delayed retry on
`orders.retry` and answers `7` otherwise; it counts its calls. The broker calls
fail for the delivery tag 13. -/
def sampleWorld : World Nat where
  Handle := fun n topic _ =>
    if topic = "boom" then (.panicked (.value "boom"), n + 1)
    else if topic = "orders.created" then (.returned 0, n + 1)
    else if topic = "orders.dead" then (.returned 1, n + 1)
    else if topic = "orders.retry" then (.returned 3, n + 1)
    else (.returned 7, n + 1)
  Ack := fun n msg _ => (if msg.DeliveryTag = 13 then some "channel closed" else none, n)
  Nack := fun n msg _ _ => (if msg.DeliveryTag = 13 then some "channel closed" else none, n)
  panicnil := false

/-- A handler that panics with an error value on every call. -/
def panickingWorld : World Nat where
  Handle := fun n _ _ => (.panicked (.error "nil pointer dereference"), n + 1)
  Ack := fun n _ _ => (none, n)
  Nack := fun n _ _ _ => (none, n)
  panicnil := false

/-- A handler whose `Handle` is `panic(nil)`, in a program whose main module
declares Go 1.20 or older (or run with `GODEBUG=panicnil=1`). -/
def nilPanicWorld : World Nat where
  Handle := fun n _ _ => (.panicked .nil, n + 1)
  Ack := fun n _ _ => (none, n)
  Nack := fun n _ _ _ => (none, n)
  panicnil := true

/-- Sample constants: `Success = 0`, `DeadLetter = 1`, `RetryBackoff = 3`. -/
def sampleConsts : EventsConsts := ⟨0, 1, 3⟩

/-- A delivery without headers. -/
def plainDelivery (tag : Nat) (routingKey : String) : Delivery :=
  ⟨none, "application/json", tag, routingKey, [123, 125]⟩

/-- A delivery whose reserved topic header holds the given value. -/
def headerDelivery (tag : Nat) (v : Value) (routingKey : String) : Delivery :=
  ⟨some [("x-thunder-topic", v)], "application/msgpack", tag, routingKey, [128]⟩

/-- The delivery tag a terminal effect is issued against. -/
def Effect.tag? : Effect → Option Nat
  | .ack msg _ => some msg.DeliveryTag
  | .nack msg _ _ => some msg.DeliveryTag
  | .retry msg => some msg.DeliveryTag
  | _ => none

/-- A delivery whose reserved topic header holds the 32-bit integer 7, as any
publisher can send it. -/
def malformedDelivery : Delivery := headerDelivery 7 (.int 7) "orders.created"

/-! ## Header tables -/

theorem Table.get?_set_self (t : Table) (k : String) (v : Value) :
    (t.set k v).get? k = some v := by
  induction t with
  | nil => simp [Table.set, Table.get?]
  | cons e rest ih =>
    obtain ⟨k1, v1⟩ := e
    by_cases h : k1 = k
    · simp [Table.set, Table.get?, h]
    · simp [Table.set, Table.get?, h, ih]

theorem Table.get?_set_of_ne (t : Table) (k k1 : String) (v : Value) (h : k1 ≠ k) :
    (t.set k v).get? k1 = t.get? k1 := by
  induction t with
  | nil => simp [Table.set, Table.get?, Ne.symm h]
  | cons e rest ih =>
    obtain ⟨k2, v2⟩ := e
    by_cases h2 : k2 = k
    · subst h2
      simp [Table.set, Table.get?, Ne.symm h]
    · simp [Table.set, Table.get?, h2, ih]

theorem Table.set_eq_self (t : Table) (k : String) (v : Value)
    (h : t.get? k = some v) : t.set k v = t := by
  induction t with
  | nil => simp [Table.get?] at h
  | cons e rest ih =>
    obtain ⟨k1, v1⟩ := e
    by_cases h1 : k1 = k
    · subst h1
      simp [Table.get?] at h
      simp [Table.set, h]
    · simp [Table.get?, h1] at h
      simp [Table.set, h1, ih h]

theorem Table.set_set (t : Table) (k : String) (v : Value) :
    (t.set k v).set k v = t.set k v :=
  Table.set_eq_self _ _ _ (Table.get?_set_self t k v)

/-! ## Topic resolution -/

theorem header?_injectTopic (msg : Delivery) (topic : String) :
    (injectTopic msg topic).header? topicHeaderKey = some (.str topic) := by
  simp [injectTopic, Delivery.header?, Table.get?_set_self]

theorem extractTopic_of_str (msg : Delivery) (T : String)
    (h : msg.header? topicHeaderKey = some (.str T)) : extractTopic msg = .returned T := by
  simp [extractTopic, h]

theorem extractTopic_of_absent (msg : Delivery)
    (h : msg.header? topicHeaderKey = none) : extractTopic msg = .returned msg.RoutingKey := by
  simp [extractTopic, h]

theorem extractTopic_of_not_ok (msg : Delivery) (h : ¬ topicHeaderOk msg) :
    extractTopic msg = .panicked typeAssertionPanic := by
  unfold topicHeaderOk at h
  unfold extractTopic
  split <;> simp_all

theorem extractTopic_of_ok (msg : Delivery) (h : topicHeaderOk msg) :
    ∃ topic, extractTopic msg = .returned topic := by
  unfold topicHeaderOk at h
  unfold extractTopic
  split <;> simp_all

theorem injectTopic_injectTopic (msg : Delivery) (topic : String) :
    injectTopic (injectTopic msg topic) topic = injectTopic msg topic := by
  simp [injectTopic, Table.set_set]

theorem injectTopic_eq_self (msg : Delivery) (T : String)
    (h : msg.header? topicHeaderKey = some (.str T)) : injectTopic msg T = msg := by
  obtain ⟨hd, ct, tag, rk, body⟩ := msg
  cases hd with
  | none => simp [Delivery.header?] at h
  | some t =>
    simp only [Delivery.header?] at h
    simp [injectTopic, Table.set_eq_self t _ _ h]

/-! ## The loop body -/

theorem terminals_logFailure (m : String) (e : Option String) :
    terminals (logFailure m e) = [] := by
  cases e <;> simp [logFailure, terminals, Effect.isTerminal]

theorem brokerCalls_logFailure (m : String) (e : Option String) :
    brokerCalls (logFailure m e) = [] := by
  cases e <;> simp [logFailure, brokerCalls, Effect.isBrokerCall]

theorem handleCalls_logFailure (m : String) (e : Option String) :
    handleCalls (logFailure m e) = [] := by
  cases e <;> simp [logFailure, handleCalls, Effect.isHandle]

theorem terminals_cons_logFailure (x : Effect) (hx : x.isTerminal = true) (m : String)
    (e : Option String) : terminals (x :: logFailure m e) = [x] := by
  have h := terminals_logFailure m e
  unfold terminals at h ⊢
  simp [List.filter_cons, hx, h]

theorem handleCalls_cons_logFailure (x : Effect) (hx : x.isHandle = false) (m : String)
    (e : Option String) : handleCalls (x :: logFailure m e) = [] := by
  have h := handleCalls_logFailure m e
  unfold handleCalls at h ⊢
  simp [List.filter_cons, hx, h]

theorem route_Success {σ : Type} (c : EventsConsts) (w : World σ) (s : σ) (msg : Delivery) :
    route c w s msg c.Success =
      (.ack msg false :: logFailure "failed to ack message" (w.Ack s msg false).1,
        (w.Ack s msg false).2) := by
  simp [route]

theorem route_DeadLetter {σ : Type} (c : EventsConsts) (hc : c.distinct) (w : World σ) (s : σ)
    (msg : Delivery) :
    route c w s msg c.DeadLetter =
      (.nack msg false false :: logFailure "failed to requeue message" (w.Nack s msg false false).1,
        (w.Nack s msg false false).2) := by
  have h1 : c.DeadLetter ≠ c.Success := Ne.symm hc.1
  simp [route, h1]

theorem route_RetryBackoff {σ : Type} (c : EventsConsts) (hc : c.distinct) (w : World σ) (s : σ)
    (msg : Delivery) : route c w s msg c.RetryBackoff = ([.retry msg], s) := by
  have h1 : c.RetryBackoff ≠ c.Success := Ne.symm hc.2.1
  have h2 : c.RetryBackoff ≠ c.DeadLetter := Ne.symm hc.2.2
  simp [route, h1, h2]

theorem route_default {σ : Type} (c : EventsConsts) (w : World σ) (s : σ) (msg : Delivery)
    (r : HandlerResponse) (h1 : r ≠ c.Success) (h2 : r ≠ c.DeadLetter)
    (h3 : r ≠ c.RetryBackoff) :
    route c w s msg r =
      (.nack msg false true :: logFailure "failed to discard message" (w.Nack s msg false true).1,
        (w.Nack s msg false true).2) := by
  simp [route, h1, h2, h3]

/-- Whatever the response, the switch performs exactly one terminal effect,
against the delivery it was given, and calls no handler. -/
theorem route_one_terminal {σ : Type} (c : EventsConsts) (w : World σ) (s : σ) (msg : Delivery)
    (r : HandlerResponse) :
    ∃ e, terminals (route c w s msg r).1 = [e] ∧ e.tag? = some msg.DeliveryTag ∧
      handleCalls (route c w s msg r).1 = [] := by
  unfold route
  split_ifs
  · rcases w.Ack s msg false with ⟨err, s1⟩
    exact ⟨.ack msg false, terminals_cons_logFailure (.ack msg false) rfl _ _, rfl,
      handleCalls_cons_logFailure (.ack msg false) rfl _ _⟩
  · rcases w.Nack s msg false false with ⟨err, s1⟩
    exact ⟨.nack msg false false, terminals_cons_logFailure (.nack msg false false) rfl _ _, rfl,
      handleCalls_cons_logFailure (.nack msg false false) rfl _ _⟩
  · exact ⟨.retry msg, rfl, rfl, rfl⟩
  · rcases w.Nack s msg false true with ⟨err, s1⟩
    exact ⟨.nack msg false true, terminals_cons_logFailure (.nack msg false true) rfl _ _, rfl,
      handleCalls_cons_logFailure (.nack msg false true) rfl _ _⟩

theorem handlerBody_of_returned {σ : Type} (c : EventsConsts) (w : World σ) (s s1 : σ)
    (msg : Delivery) (topic : String) (r : HandlerResponse)
    (ht : extractTopic msg = .returned topic)
    (hH : w.Handle s topic (newDecoder (injectTopic msg topic)) = (.returned r, s1)) :
    rabbitmqConsumer.handlerBody c w s msg =
      ⟨[.log .info "consuming message" none, .handle topic (newDecoder (injectTopic msg topic))]
          ++ (route c w s1 (injectTopic msg topic) r).1,
        (route c w s1 (injectTopic msg topic) r).2, none⟩ := by
  simp [rabbitmqConsumer.handlerBody, ht, handleWithRecoverer, hH]

theorem handlerBody_of_panicked {σ : Type} (c : EventsConsts) (w : World σ) (s s1 : σ)
    (msg : Delivery) (topic : String) (p r : PanicValue)
    (ht : extractTopic msg = .returned topic)
    (hH : w.Handle s topic (newDecoder (injectTopic msg topic)) = (.panicked p, s1))
    (hr : recoverValue w.panicnil p = some r) :
    rabbitmqConsumer.handlerBody c w s msg =
      ⟨[.log .info "consuming message" none, .handle topic (newDecoder (injectTopic msg topic)),
          .log .error "panic while consuming message" (some (panicError r))]
          ++ (route c w s1 (injectTopic msg topic) c.DeadLetter).1,
        (route c w s1 (injectTopic msg topic) c.DeadLetter).2, none⟩ := by
  simp [rabbitmqConsumer.handlerBody, ht, handleWithRecoverer, hH, hr]

/-- A handler panic for which `recover()` returns nil: the panic is stopped,
nothing is logged and the switch runs on the zero value of the response. -/
theorem handlerBody_of_panicked_nil {σ : Type} (c : EventsConsts) (w : World σ) (s s1 : σ)
    (msg : Delivery) (topic : String) (p : PanicValue)
    (ht : extractTopic msg = .returned topic)
    (hH : w.Handle s topic (newDecoder (injectTopic msg topic)) = (.panicked p, s1))
    (hr : recoverValue w.panicnil p = none) :
    rabbitmqConsumer.handlerBody c w s msg =
      ⟨[.log .info "consuming message" none, .handle topic (newDecoder (injectTopic msg topic))]
          ++ (route c w s1 (injectTopic msg topic) 0).1,
        (route c w s1 (injectTopic msg topic) 0).2, none⟩ := by
  simp [rabbitmqConsumer.handlerBody, ht, handleWithRecoverer, hH, hr]

/-- Without the `panicnil` setting `recover()` never returns nil for a panic
in flight, and with it only for `panic(nil)`. -/
theorem recoverValue_eq_none (panicnil : Bool) (p : PanicValue) :
    recoverValue panicnil p = none ↔ panicnil = true ∧ p = .nil := by
  cases p <;> cases panicnil <;> simp [recoverValue]

/-- A delivery with a malformed topic header: the panic of `extractTopic`
leaves the iteration before anything is done. -/
theorem handlerBody_of_not_ok {σ : Type} (c : EventsConsts) (w : World σ) (s : σ)
    (msg : Delivery) (h : ¬ topicHeaderOk msg) :
    rabbitmqConsumer.handlerBody c w s msg = ⟨[], s, some typeAssertionPanic⟩ := by
  simp [rabbitmqConsumer.handlerBody, extractTopic_of_not_ok msg h]

/-- For a delivery whose topic header is absent or a string, whatever the
handler does (return any response, or panic) and whether or not the broker call
fails, the iteration lets no panic out, calls the handler once and performs
exactly one terminal effect, against that delivery. -/
theorem handlerBody_one_terminal {σ : Type} (c : EventsConsts) (w : World σ) (s : σ)
    (msg : Delivery) (hmsg : topicHeaderOk msg) :
    (rabbitmqConsumer.handlerBody c w s msg).escaped = none ∧
    (∃ e, terminals (rabbitmqConsumer.handlerBody c w s msg).effects = [e] ∧
      e.tag? = some msg.DeliveryTag) ∧
    (handleCalls (rabbitmqConsumer.handlerBody c w s msg).effects).length = 1 := by
  obtain ⟨topic, ht⟩ := extractTopic_of_ok msg hmsg
  rcases hH : w.Handle s topic (newDecoder (injectTopic msg topic)) with ⟨o, s1⟩
  cases o with
  | returned r =>
    rw [handlerBody_of_returned c w s s1 msg topic r ht hH]
    obtain ⟨e, h1, h2, h3⟩ := route_one_terminal c w s1 (injectTopic msg topic) r
    refine ⟨rfl, ⟨e, ?_, h2⟩, ?_⟩
    · unfold terminals at h1 ⊢
      simp [List.filter_cons, Effect.isTerminal, h1]
    · unfold handleCalls at h3 ⊢
      simp [List.filter_cons, Effect.isHandle, h3]
  | panicked p =>
    cases hr : recoverValue w.panicnil p with
    | some r =>
      rw [handlerBody_of_panicked c w s s1 msg topic p r ht hH hr]
      obtain ⟨e, h1, h2, h3⟩ := route_one_terminal c w s1 (injectTopic msg topic) c.DeadLetter
      refine ⟨rfl, ⟨e, ?_, h2⟩, ?_⟩
      · unfold terminals at h1 ⊢
        simp [List.filter_cons, Effect.isTerminal, h1]
      · unfold handleCalls at h3 ⊢
        simp [List.filter_cons, Effect.isHandle, h3]
    | none =>
      rw [handlerBody_of_panicked_nil c w s s1 msg topic p ht hH hr]
      obtain ⟨e, h1, h2, h3⟩ := route_one_terminal c w s1 (injectTopic msg topic) 0
      refine ⟨rfl, ⟨e, ?_, h2⟩, ?_⟩
      · unfold terminals at h1 ⊢
        simp [List.filter_cons, Effect.isTerminal, h1]
      · unfold handleCalls at h3 ⊢
        simp [List.filter_cons, Effect.isHandle, h3]

/-! ## The loop -/

theorem handler_nil {σ : Type} (c : EventsConsts) (w : World σ) (s : σ) :
    rabbitmqConsumer.handler c w s [] = ⟨[], s, none⟩ := rfl

theorem handler_cons_of_escaped {σ : Type} (c : EventsConsts) (w : World σ) (s : σ)
    (msg : Delivery) (msgs : List Delivery) (p : PanicValue)
    (h : (rabbitmqConsumer.handlerBody c w s msg).escaped = some p) :
    rabbitmqConsumer.handler c w s (msg :: msgs) = rabbitmqConsumer.handlerBody c w s msg := by
  rcases hb : rabbitmqConsumer.handlerBody c w s msg with ⟨effs, s1, esc⟩
  rw [hb] at h
  simp only at h
  subst h
  simp [rabbitmqConsumer.handler, hb]

theorem handler_cons_of_contained {σ : Type} (c : EventsConsts) (w : World σ) (s : σ)
    (msg : Delivery) (msgs : List Delivery)
    (h : (rabbitmqConsumer.handlerBody c w s msg).escaped = none) :
    rabbitmqConsumer.handler c w s (msg :: msgs) =
      ⟨(rabbitmqConsumer.handlerBody c w s msg).effects ++
          (rabbitmqConsumer.handler c w (rabbitmqConsumer.handlerBody c w s msg).state msgs).effects,
        (rabbitmqConsumer.handler c w (rabbitmqConsumer.handlerBody c w s msg).state msgs).state,
        (rabbitmqConsumer.handler c w (rabbitmqConsumer.handlerBody c w s msg).state msgs).escaped⟩ := by
  rcases hb : rabbitmqConsumer.handlerBody c w s msg with ⟨effs, s1, esc⟩
  rw [hb] at h
  simp only at h
  subst h
  simp [rabbitmqConsumer.handler, hb]

/-- Over deliveries whose topic header is absent or a string the loop runs to
the end of the sequence without a panic, calls the handler once per delivery
and performs one terminal effect per delivery, in the order received. -/
theorem handler_in_order {σ : Type} (c : EventsConsts) (w : World σ) (msgs : List Delivery)
    (hmsgs : ∀ m ∈ msgs, topicHeaderOk m) (s : σ) :
    (rabbitmqConsumer.handler c w s msgs).escaped = none ∧
    (terminals (rabbitmqConsumer.handler c w s msgs).effects).filterMap Effect.tag?
      = msgs.map Delivery.DeliveryTag ∧
    (handleCalls (rabbitmqConsumer.handler c w s msgs).effects).length = msgs.length := by
  induction msgs generalizing s with
  | nil => simp [handler_nil, terminals, handleCalls]
  | cons msg msgs ih =>
    have hm : topicHeaderOk msg := hmsgs msg (List.mem_cons_self _ _)
    have hrest : ∀ m ∈ msgs, topicHeaderOk m := fun m hmem =>
      hmsgs m (List.mem_cons_of_mem _ hmem)
    obtain ⟨h1, ⟨e, h2, h3⟩, h4⟩ := handlerBody_one_terminal c w s msg hm
    obtain ⟨i1, i2, i3⟩ := ih hrest (rabbitmqConsumer.handlerBody c w s msg).state
    rw [handler_cons_of_contained c w s msg msgs h1]
    refine ⟨i1, ?_, ?_⟩
    · unfold terminals at h2 i2 ⊢
      simp only [List.filter_append, List.filterMap_append, h2, i2]
      simp [h3]
    · unfold handleCalls at h4 i3 ⊢
      simp only [List.filter_append, List.length_append, h4, i3, List.length_cons]
      omega

/-- The loop over a sequence in two parts is the loop over the first part
followed, when no panic left it, by the loop over the second part from the
state the first part ended in: nothing but the state of the collaborators is
carried from one delivery to the next. -/
theorem handler_append {σ : Type} (c : EventsConsts) (w : World σ) (xs ys : List Delivery)
    (s : σ) (h : (rabbitmqConsumer.handler c w s xs).escaped = none) :
    (rabbitmqConsumer.handler c w s (xs ++ ys)).effects =
      (rabbitmqConsumer.handler c w s xs).effects ++
        (rabbitmqConsumer.handler c w (rabbitmqConsumer.handler c w s xs).state ys).effects ∧
    (rabbitmqConsumer.handler c w s (xs ++ ys)).escaped =
      (rabbitmqConsumer.handler c w (rabbitmqConsumer.handler c w s xs).state ys).escaped := by
  induction xs generalizing s with
  | nil => simp [handler_nil]
  | cons x xs ih =>
    cases hx : (rabbitmqConsumer.handlerBody c w s x).escaped with
    | some p =>
      rw [handler_cons_of_escaped c w s x xs p hx, hx] at h
      simp at h
    | none =>
      rw [handler_cons_of_contained c w s x xs hx] at h
      simp only at h
      obtain ⟨j1, j2⟩ := ih (rabbitmqConsumer.handlerBody c w s x).state h
      rw [List.cons_append, handler_cons_of_contained c w s x (xs ++ ys) hx,
        handler_cons_of_contained c w s x xs hx]
      simp [j1, j2]

/-! ## Claims on topic resolution and decoder selection -/

/-- C3: when the headers hold a string `T` under the reserved key (the empty
string included), `extractTopic` returns `T` whatever the routing key is, and
after `injectTopic` with that result the header still holds exactly `T`; the
delivery is in fact left as it was. -/
theorem extractTopic_header_wins (msg : Delivery) (T R : String)
    (h : msg.header? topicHeaderKey = some (.str T)) :
    extractTopic { msg with RoutingKey := R } = .returned T ∧
    (injectTopic { msg with RoutingKey := R } T).header? topicHeaderKey = some (.str T) ∧
    injectTopic { msg with RoutingKey := R } T = { msg with RoutingKey := R } := by
  have h1 : ({ msg with RoutingKey := R } : Delivery).header? topicHeaderKey = some (.str T) := by
    simpa [Delivery.header?] using h
  exact ⟨extractTopic_of_str _ T h1, header?_injectTopic _ T, injectTopic_eq_self _ T h1⟩

theorem extractTopic_header_wins_witness :
    (headerDelivery 1 (.str "") "orders.created").header? topicHeaderKey = some (.str "") ∧
    extractTopic { headerDelivery 1 (.str "") "orders.created" with RoutingKey := "__redelivery__" }
      = .returned "" ∧
    (injectTopic { headerDelivery 1 (.str "") "orders.created" with RoutingKey := "__redelivery__" }
      "").header? topicHeaderKey = some (.str "") :=
  have h := extractTopic_header_wins (headerDelivery 1 (.str "") "orders.created") ""
    "__redelivery__" (by decide)
  ⟨by decide, h.1, h.2.1⟩

/-- C4: when the header map is nil or lacks the reserved key, `extractTopic`
returns the routing key `R`, and after `injectTopic` with that result the
header map exists and holds `R` under the reserved key; a nil map is replaced
by a map holding just that binding. -/
theorem extractTopic_falls_back (msg : Delivery)
    (h : msg.Headers = none ∨ ∃ t, msg.Headers = some t ∧ t.get? topicHeaderKey = none) :
    extractTopic msg = .returned msg.RoutingKey ∧
    (∃ t, (injectTopic msg msg.RoutingKey).Headers = some t ∧
      t.get? topicHeaderKey = some (.str msg.RoutingKey)) ∧
    (msg.Headers = none →
      (injectTopic msg msg.RoutingKey).Headers = some [(topicHeaderKey, .str msg.RoutingKey)]) := by
  have h0 : msg.header? topicHeaderKey = none := by
    rcases h with h | ⟨t, ht, hk⟩
    · simp [Delivery.header?, h]
    · simp [Delivery.header?, ht, hk]
  refine ⟨extractTopic_of_absent msg h0, ?_, ?_⟩
  · exact ⟨_, rfl, Table.get?_set_self _ _ _⟩
  · intro hn
    simp [injectTopic, hn, Table.set]

theorem extractTopic_falls_back_witness :
    (plainDelivery 1 "orders.created").Headers = none ∧
    extractTopic (plainDelivery 1 "orders.created") = .returned "orders.created" ∧
    (injectTopic (plainDelivery 1 "orders.created") "orders.created").Headers
      = some [(topicHeaderKey, .str "orders.created")] :=
  have h := extractTopic_falls_back (plainDelivery 1 "orders.created") (Or.inl rfl)
  ⟨rfl, h.1, h.2.2 rfl⟩

/-- C5: when the reserved topic header is absent or a string, resolving and
stamping twice (`extractTopic` then `injectTopic`, and again on the stamped
delivery) gives the same topic both times, and the delivery after the second
stamping, its header map included, is the delivery after the first. -/
theorem stamp_twice (msg : Delivery) (h : topicHeaderOk msg) :
    ∃ topic, extractTopic msg = .returned topic ∧
      extractTopic (injectTopic msg topic) = .returned topic ∧
      injectTopic (injectTopic msg topic) topic = injectTopic msg topic ∧
      (injectTopic (injectTopic msg topic) topic).Headers = (injectTopic msg topic).Headers := by
  obtain ⟨topic, ht⟩ := extractTopic_of_ok msg h
  refine ⟨topic, ht, extractTopic_of_str _ topic (header?_injectTopic msg topic), ?_, ?_⟩
  · exact injectTopic_injectTopic msg topic
  · rw [injectTopic_injectTopic]

theorem stamp_twice_witness :
    topicHeaderOk (plainDelivery 1 "orders.created") ∧
    ∃ topic, extractTopic (plainDelivery 1 "orders.created") = .returned topic ∧
      extractTopic (injectTopic (plainDelivery 1 "orders.created") topic) = .returned topic ∧
      injectTopic (injectTopic (plainDelivery 1 "orders.created") topic) topic
        = injectTopic (plainDelivery 1 "orders.created") topic ∧
      (injectTopic (injectTopic (plainDelivery 1 "orders.created") topic) topic).Headers
        = (injectTopic (plainDelivery 1 "orders.created") topic).Headers :=
  ⟨by decide, stamp_twice (plainDelivery 1 "orders.created") (by decide)⟩

/-- C6: `newDecoder` returns a msgpack decoder exactly when the content type is
`application/msgpack` and a JSON decoder otherwise (the empty content type
included); in both cases the decoder reads the delivery body; and the kind of
decoder is the same for any other headers, delivery tag, routing key and
body. -/
theorem newDecoder_by_content_type (msg : Delivery) :
    (newDecoder msg = .msgpack msg.Body ↔ msg.ContentType = "application/msgpack") ∧
    (newDecoder msg = .json msg.Body ↔ msg.ContentType ≠ "application/msgpack") ∧
    (newDecoder msg).body = msg.Body ∧
    newDecoder { msg with ContentType := "" } = .json msg.Body ∧
    ∀ (hd : Option Table) (tag : Nat) (rk : String) (body : List Nat),
      (newDecoder ⟨hd, msg.ContentType, tag, rk, body⟩).isMsgpack = (newDecoder msg).isMsgpack := by
  by_cases h : msg.ContentType = "application/msgpack"
  · simp [newDecoder, h, Decoder.body, Decoder.isMsgpack]
  · simp [newDecoder, h, Decoder.body, Decoder.isMsgpack]

/-! ## Claims on the dispatch loop -/

/-- C1: for a delivery whose reserved topic header is absent or a string and a
handler call that returns `r`, one iteration of the loop calls the handler once
with the resolved topic and lets no panic out, and its only terminal effect is
keyed by `r`: `Success` gives `Ack(false)`; `DeadLetter` gives
`Nack(false, false)`; `RetryBackoff` gives no broker call by the loop and one
hand-off to `retryBackoff`; every other value gives `Nack(false, true)`. -/
theorem handlerBody_dispatch {σ : Type} (c : EventsConsts) (hc : c.distinct) (w : World σ)
    (s : σ) (msg : Delivery) (hmsg : topicHeaderOk msg) :
    ∃ topic, extractTopic msg = .returned topic ∧
      ∀ (r : HandlerResponse) (s1 : σ),
        w.Handle s topic (newDecoder (injectTopic msg topic)) = (.returned r, s1) →
        (rabbitmqConsumer.handlerBody c w s msg).escaped = none ∧
        handleCalls (rabbitmqConsumer.handlerBody c w s msg).effects
          = [.handle topic (newDecoder (injectTopic msg topic))] ∧
        (r = c.Success →
          terminals (rabbitmqConsumer.handlerBody c w s msg).effects
            = [.ack (injectTopic msg topic) false]) ∧
        (r = c.DeadLetter →
          terminals (rabbitmqConsumer.handlerBody c w s msg).effects
            = [.nack (injectTopic msg topic) false false]) ∧
        (r = c.RetryBackoff →
          terminals (rabbitmqConsumer.handlerBody c w s msg).effects
            = [.retry (injectTopic msg topic)] ∧
          brokerCalls (rabbitmqConsumer.handlerBody c w s msg).effects = []) ∧
        (r ≠ c.Success → r ≠ c.DeadLetter → r ≠ c.RetryBackoff →
          terminals (rabbitmqConsumer.handlerBody c w s msg).effects
            = [.nack (injectTopic msg topic) false true]) := by
  obtain ⟨topic, ht⟩ := extractTopic_of_ok msg hmsg
  refine ⟨topic, ht, ?_⟩
  intro r s1 hH
  rw [handlerBody_of_returned c w s s1 msg topic r ht hH]
  refine ⟨rfl, ?_, ?_, ?_, ?_, ?_⟩
  · obtain ⟨e, _, _, h3⟩ := route_one_terminal c w s1 (injectTopic msg topic) r
    unfold handleCalls at h3 ⊢
    simp [List.filter_cons, Effect.isHandle, h3]
  · intro hr
    subst hr
    rw [route_Success]
    have h := terminals_cons_logFailure (.ack (injectTopic msg topic) false) rfl
      "failed to ack message" (w.Ack s1 (injectTopic msg topic) false).1
    unfold terminals at h ⊢
    simp [List.filter_cons, Effect.isTerminal, h]
  · intro hr
    subst hr
    rw [route_DeadLetter c hc]
    have h := terminals_cons_logFailure (.nack (injectTopic msg topic) false false) rfl
      "failed to requeue message" (w.Nack s1 (injectTopic msg topic) false false).1
    unfold terminals at h ⊢
    simp [List.filter_cons, Effect.isTerminal, h]
  · intro hr
    subst hr
    rw [route_RetryBackoff c hc]
    simp [terminals, brokerCalls, Effect.isTerminal, Effect.isBrokerCall]
  · intro h1 h2 h3
    rw [route_default c w s1 _ r h1 h2 h3]
    have h := terminals_cons_logFailure (.nack (injectTopic msg topic) false true) rfl
      "failed to discard message" (w.Nack s1 (injectTopic msg topic) false true).1
    unfold terminals at h ⊢
    simp [List.filter_cons, Effect.isTerminal, h]

theorem handlerBody_dispatch_witness :
    sampleConsts.distinct ∧ topicHeaderOk (plainDelivery 1 "orders.created") ∧
    sampleWorld.Handle 0 "orders.created"
      (newDecoder (injectTopic (plainDelivery 1 "orders.created") "orders.created"))
      = (.returned sampleConsts.Success, 1) ∧
    (rabbitmqConsumer.handlerBody sampleConsts sampleWorld 0
      (plainDelivery 1 "orders.created")).escaped = none ∧
    handleCalls (rabbitmqConsumer.handlerBody sampleConsts sampleWorld 0
        (plainDelivery 1 "orders.created")).effects
      = [.handle "orders.created" (.json [123, 125])] ∧
    terminals (rabbitmqConsumer.handlerBody sampleConsts sampleWorld 0
        (plainDelivery 1 "orders.created")).effects
      = [.ack ⟨some [("x-thunder-topic", .str "orders.created")], "application/json", 1,
          "orders.created", [123, 125]⟩ false] := by
  obtain ⟨topic, ht, h⟩ := handlerBody_dispatch sampleConsts (by decide) sampleWorld 0
    (plainDelivery 1 "orders.created") (by decide)
  have h0 : extractTopic (plainDelivery 1 "orders.created") = .returned "orders.created" := by
    decide
  rw [h0] at ht
  injection ht with ht
  subst ht
  have h1 := h sampleConsts.Success 1 (by decide)
  exact ⟨by decide, by decide, by decide, h1.1, h1.2.1, h1.2.2.1 rfl⟩

/-- A handler panic whose value `recover()` hands back non-nil (every payload
but `panic(nil)` under the `panicnil` setting): `handleWithRecoverer` returns
`DeadLetter` instead of panicking, and the iteration lets no panic out and
rejects the delivery with `Nack(false, false)` as its only terminal effect. -/
theorem handleWithRecoverer_of_recovered {σ : Type} (c : EventsConsts) (hc : c.distinct)
    (w : World σ) (s s1 : σ) (p : PanicValue) (hp : ¬ (w.panicnil = true ∧ p = .nil)) :
    (∀ (topic : String) (decoder : Decoder),
      w.Handle s topic decoder = (.panicked p, s1) →
      (handleWithRecoverer c w s topic decoder).1 = .returned c.DeadLetter) ∧
    (∀ (msg : Delivery) (topic : String),
      extractTopic msg = .returned topic →
      w.Handle s topic (newDecoder (injectTopic msg topic)) = (.panicked p, s1) →
      (rabbitmqConsumer.handlerBody c w s msg).escaped = none ∧
      terminals (rabbitmqConsumer.handlerBody c w s msg).effects
        = [.nack (injectTopic msg topic) false false]) := by
  have hne : recoverValue w.panicnil p ≠ none := fun h0 =>
    hp ((recoverValue_eq_none w.panicnil p).1 h0)
  obtain ⟨r, hr⟩ := Option.ne_none_iff_exists'.1 hne
  constructor
  · intro topic decoder hH
    simp [handleWithRecoverer, hH, hr]
  · intro msg topic ht hH
    rw [handlerBody_of_panicked c w s s1 msg topic p r ht hH hr, route_DeadLetter c hc]
    refine ⟨rfl, ?_⟩
    have h := terminals_cons_logFailure (.nack (injectTopic msg topic) false false) rfl
      "failed to requeue message" (w.Nack s1 (injectTopic msg topic) false false).1
    unfold terminals at h ⊢
    simp [List.filter_cons, Effect.isTerminal, h]

theorem handleWithRecoverer_of_recovered_example :
    sampleConsts.distinct ∧
    extractTopic (headerDelivery 1 (.str "orders.created") "__redelivery__")
      = .returned "orders.created" ∧
    panickingWorld.Handle 0 "orders.created"
      (newDecoder (injectTopic (headerDelivery 1 (.str "orders.created") "__redelivery__")
        "orders.created")) = (.panicked (.error "nil pointer dereference"), 1) ∧
    (handleWithRecoverer sampleConsts panickingWorld 0 "orders.created"
      (.msgpack [128])).1 = .returned sampleConsts.DeadLetter ∧
    (rabbitmqConsumer.handlerBody sampleConsts panickingWorld 0
      (headerDelivery 1 (.str "orders.created") "__redelivery__")).escaped = none ∧
    terminals (rabbitmqConsumer.handlerBody sampleConsts panickingWorld 0
      (headerDelivery 1 (.str "orders.created") "__redelivery__")).effects
      = [.nack (injectTopic (headerDelivery 1 (.str "orders.created") "__redelivery__")
          "orders.created") false false] :=
  have h := handleWithRecoverer_of_recovered sampleConsts (by decide) panickingWorld 0 1
    (.error "nil pointer dereference") (by decide)
  have h2 := h.2 (headerDelivery 1 (.str "orders.created") "__redelivery__") "orders.created"
    (by decide) (by decide)
  ⟨by decide, by decide, by decide, h.1 "orders.created" (.msgpack [128]) (by decide),
    h2.1, h2.2⟩

/-! ## The nil panic -/

/-- C2, evaluated on a handler whose `Handle` is `panic(nil)` under the
`panicnil` setting: `recover()` returns nil, the branch `r != nil` is skipped,
`handleWithRecoverer` returns the zero response instead of `DeadLetter` and
logs no panic, and the loop, for which zero is `Success`, acknowledges the
delivery with `Ack(false)` instead of rejecting it with `Nack(false, false)`. -/
theorem panic_nil_not_dead_lettered :
    nilPanicWorld.Handle 0 "orders.created" (.msgpack [128]) = (.panicked .nil, 1) ∧
    handleWithRecoverer sampleConsts nilPanicWorld 0 "orders.created" (.msgpack [128])
      = (.returned 0,
          [.log .info "consuming message" none, .handle "orders.created" (.msgpack [128])], 1) ∧
    (handleWithRecoverer sampleConsts nilPanicWorld 0 "orders.created" (.msgpack [128])).1
      ≠ .returned sampleConsts.DeadLetter ∧
    (rabbitmqConsumer.handlerBody sampleConsts nilPanicWorld 0
      (headerDelivery 1 (.str "orders.created") "__redelivery__")).escaped = none ∧
    terminals (rabbitmqConsumer.handlerBody sampleConsts nilPanicWorld 0
      (headerDelivery 1 (.str "orders.created") "__redelivery__")).effects
      = [.ack (headerDelivery 1 (.str "orders.created") "__redelivery__") false] := by
  decide

/-! ## The malformed topic header -/

/-- C7, evaluated on a delivery whose reserved header holds an integer: the
type assertion of `extractTopic` panics before `handleWithRecoverer` is
entered, the panic leaves the iteration and the loop, no `Nack(false, false)`
or other broker call is made, and the delivery that follows is never handed to
the handler. -/
theorem malformed_header_panic_escapes :
    extractTopic malformedDelivery = .panicked typeAssertionPanic ∧
    (rabbitmqConsumer.handlerBody sampleConsts sampleWorld 0 malformedDelivery).escaped
      = some typeAssertionPanic ∧
    brokerCalls (rabbitmqConsumer.handlerBody sampleConsts sampleWorld 0
      malformedDelivery).effects = [] ∧
    (rabbitmqConsumer.handler sampleConsts sampleWorld 0
      [malformedDelivery, plainDelivery 8 "orders.created"]).escaped
      = some typeAssertionPanic ∧
    (rabbitmqConsumer.handler sampleConsts sampleWorld 0
      [malformedDelivery, plainDelivery 8 "orders.created"]).effects = [] := by
  decide

/-- C8, evaluated on a delivery whose reserved header holds an integer: the
iteration performs no terminal effect at all, neither `Ack`, `Nack` nor a
hand-off to `retryBackoff`. -/
theorem malformed_header_no_terminal :
    terminals (rabbitmqConsumer.handlerBody sampleConsts sampleWorld 0
      malformedDelivery).effects = [] ∧
    (terminals (rabbitmqConsumer.handlerBody sampleConsts sampleWorld 0
      malformedDelivery).effects).length ≠ 1 := by
  decide

/-- C9, evaluated on three deliveries of which the second has an integer in
its reserved header: the handler is called for the first delivery only, the
only terminal effect is the `Ack` of the first delivery, and the loop ends
with the panic instead of going on to the third delivery. -/
theorem malformed_header_stops_loop :
    (handleCalls (rabbitmqConsumer.handler sampleConsts sampleWorld 0
      [plainDelivery 1 "orders.created", malformedDelivery,
        plainDelivery 8 "orders.created"]).effects).length = 1 ∧
    (terminals (rabbitmqConsumer.handler sampleConsts sampleWorld 0
      [plainDelivery 1 "orders.created", malformedDelivery,
        plainDelivery 8 "orders.created"]).effects).filterMap Effect.tag? = [1] ∧
    (rabbitmqConsumer.handler sampleConsts sampleWorld 0
      [plainDelivery 1 "orders.created", malformedDelivery,
        plainDelivery 8 "orders.created"]).escaped = some typeAssertionPanic := by
  decide

end Thunder
